import Mathlib

/-!
# Account REST service — shallow embedding

Embedding of `src/service/routes.py` (the HTTP handler layer) of the
account microservice, together with a model of the Account record layer
(`service/models.py`, whose source is not in the repository snapshot; it
is modelled from the specification, see the doc comments below).

HTTP responses are modelled symbolically: a status code, a body drawn
from the JSON shapes the handlers actually produce, and an optional
`Location` header.  The backing store is a list of rows plus the next
server-assigned id.
-/

namespace AccountService

/-- A persisted account row.  `date_joined` is kept as its rendered ISO
date string, which is how it appears on the wire. -/
structure Account where
  id : Nat
  name : String
  email : String
  address : String
  phone_number : String
  date_joined : String
deriving DecidableEq, Repr

/-- The field values of an account before an id has been assigned. -/
structure AccountData where
  name : String
  email : String
  address : String
  phone_number : String
  date_joined : String
deriving DecidableEq, Repr

/-- A client JSON body for create/update: each expected key may be
present or absent.  A client-supplied `id` is carried but ignored by the
service. -/
structure Payload where
  id : Option Nat := none
  name : Option String := none
  email : Option String := none
  address : Option String := none
  phone_number : Option String := none
  date_joined : Option String := none
deriving DecidableEq, Repr

/-- All four required fields are present. -/
def Payload.isComplete (p : Payload) : Bool :=
  p.name.isSome && p.email.isSome && p.address.isSome && p.phone_number.isSome

/-- Modelled from the spec: `date_joined` "defaults to the current date
when absent".  The current date is a fixed ambient value of the
environment, represented by this constant. -/
def defaultDate : String := "2020-01-01"

/-- Modelled from the spec: `deserialize(payload)` of the Account record
model (`service/models.py` is absent from the snapshot).  Fails with a
validation error if any required field (`name`, `email`, `address`,
`phone_number`) is missing; `date_joined` defaults to the current date
when absent; a client-supplied `id` is ignored. -/
def Account.deserialize (p : Payload) : Option AccountData :=
  match p.name, p.email, p.address, p.phone_number with
  | some n, some e, some a, some ph =>
      some ⟨n, e, a, ph, p.date_joined.getD defaultDate⟩
  | _, _, _, _ => none

/-- The backing store: persisted rows in insertion order, plus the next
id the persistence layer will assign. -/
structure Store where
  rows : List Account
  nextId : Nat
deriving DecidableEq, Repr

/-- The store with no persisted accounts; server-generated ids start
at 1, as a relational sequence does. -/
def Store.empty : Store := ⟨[], 1⟩

/-- Modelled from the spec: `find(id)` is a static lookup returning the
Account matching `id`, or an explicit not-found sentinel. -/
def Account.find (i : Nat) (s : Store) : Option Account :=
  s.rows.find? (fun a => a.id = i)

/-- Modelled from the spec: `all()` returns the ordered-by-insertion
full set of persisted Accounts; empty when none exist. -/
def Account.all (s : Store) : List Account := s.rows

/-- Modelled from the spec: `create()` persists a new instance and
assigns the server-generated `id`; one row is inserted. -/
def Account.create (d : AccountData) (s : Store) : Account × Store :=
  let a : Account := ⟨s.nextId, d.name, d.email, d.address, d.phone_number, d.date_joined⟩
  (a, ⟨s.rows ++ [a], s.nextId + 1⟩)

/-- Modelled from the spec: `update()` persists changes to the existing
instance identified by its current `id` (full replace of all fields
except `id`). -/
def Account.update (a : Account) (s : Store) : Store :=
  ⟨s.rows.map (fun r => if r.id = a.id then a else r), s.nextId⟩

/-- Modelled from the spec: `delete()` removes the row identified by
`id`; removing an absent id is a no-op. -/
def Account.delete (i : Nat) (s : Store) : Store :=
  ⟨s.rows.filter (fun r => r.id ≠ i), s.nextId⟩

/-- The JSON response bodies the handlers produce. -/
inductive Body where
  /-- One serialized account object, JSON-encoded. -/
  | account : Account → Body
  /-- A JSON array of serialized accounts; renders as the empty array
  when the list is empty, as in the 404 and 204 branches. -/
  | accountList : List Account → Body
  /-- The health body, exactly the object with key `status` and value `OK`. -/
  | statusOK : Body
  /-- The root index body: service name and version metadata. -/
  | serviceInfo : Body
  /-- The framework-rendered body of an abort or validation error with a
  diagnostic message. -/
  | errorMsg : String → Body
deriving DecidableEq, Repr

/-- An HTTP response: status code, body, optional `Location` header. -/
structure Response where
  status : Nat
  body : Body
  location : Option String := none
deriving DecidableEq, Repr

/-- HTTP methods used by the service. -/
inductive Method where
  | GET | POST | PUT | DELETE
deriving DecidableEq, Repr

/-- An HTTP request: method, URL (path, possibly with a query string),
the declared `Content-Type` header (absent = `none`), and the JSON
body. -/
structure Request where
  method : Method
  url : String
  contentType : Option String := none
  body : Payload := {}
deriving DecidableEq, Repr

/-- The expected media type of the create endpoint. -/
def jsonType : String := "application/json"

/-- Diagnostic message of the content-type guard. -/
def badTypeMsg (media_type : String) : String := "Content-Type must be " ++ media_type

/-- Diagnostic message of a deserialization (validation) failure. -/
def missingFieldMsg : String := "Invalid Account: missing required field"

/-- Handler `health` (routes.py:16-19): answers 200 with the body
holding exactly the status-OK object. -/
def health : Response := ⟨200, Body.statusOK, none⟩

/-- Handler `index` (routes.py:25-35): root URL metadata with 200. -/
def index : Response := ⟨200, Body.serviceInfo, none⟩

/-- Guard `check_content_type` (routes.py:154-163): reads the
`Content-Type` header; if it is truthy (present and non-empty) and equal
to the expected media type the guard passes (`none`); otherwise it
aborts with 415 and a diagnostic message. -/
def check_content_type (media_type : String) (req : Request) : Option Response :=
  match req.contentType with
  | some ct =>
      if ct ≠ "" ∧ ct = media_type then none
      else some ⟨415, Body.errorMsg (badTypeMsg media_type), none⟩
  | none => some ⟨415, Body.errorMsg (badTypeMsg media_type), none⟩

/-- The `Location` URL built by `create_accounts` (routes.py:54): the
view name passed to the URL builder is `get_accounts`, which is the LIST
route `/accounts` (routes.py:65) and takes no path parameters, so the
framework renders `account_id` as a query parameter appended to the
list endpoint's path. -/
def location_url (i : Nat) : String := "/accounts?account_id=" ++ toString i

/-- Handler `create_accounts` (routes.py:41-58): content-type guard
first, then deserialize the body (400 on validation failure, before any
persistence call), then persist and answer 201 with the serialized new
account and the `Location` header. -/
def create_accounts (req : Request) (s : Store) : Response × Store :=
  match check_content_type jsonType req with
  | some resp => (resp, s)
  | none =>
    match Account.deserialize req.body with
    | none => (⟨400, Body.errorMsg missingFieldMsg, none⟩, s)
    | some d =>
      let (account, s') := Account.create d s
      (⟨201, Body.account account, some (location_url account.id)⟩, s')

/-- Handler `get_accounts` (routes.py:65-78): serializes every persisted
account into a JSON array and answers 200. -/
def get_accounts (s : Store) : Response :=
  ⟨200, Body.accountList (Account.all s), none⟩

/-- Handler `read_account` (routes.py:85-101): 200 with the serialized
account when found, otherwise 404 with the empty JSON array. -/
def read_account (i : Nat) (s : Store) : Response :=
  match Account.find i s with
  | none => ⟨404, Body.accountList [], none⟩
  | some a => ⟨200, Body.account a, none⟩

/-- Handler `update_account` (routes.py:109-127): not-found check first
(404 with the empty array, store untouched, before the body is read);
then deserialize into the found instance (400 on validation failure) and
persist the full replacement, answering 200 with the updated account. -/
def update_account (i : Nat) (req : Request) (s : Store) : Response × Store :=
  match Account.find i s with
  | none => (⟨404, Body.accountList [], none⟩, s)
  | some found =>
    match Account.deserialize req.body with
    | none => (⟨400, Body.errorMsg missingFieldMsg, none⟩, s)
    | some d =>
      let a : Account := ⟨found.id, d.name, d.email, d.address, d.phone_number, d.date_joined⟩
      (⟨200, Body.account a, none⟩, Account.update a s)

/-- Handler `delete_account` (routes.py:134-147): when the account is
found it is deleted and 204 with the empty array body is returned; when
it is NOT found the Python function falls off the end and returns
`None` — there is no handler response (`none` here), which the framework
turns into a server error. -/
def delete_account (i : Nat) (s : Store) : Option Response × Store :=
  match Account.find i s with
  | some _ => (some ⟨204, Body.accountList [], none⟩, Account.delete i s)
  | none => (none, s)

/-- The characters before the first question mark. -/
def takeUntilQmark : List Char → List Char
  | [] => []
  | c :: cs => if c = '?' then [] else c :: takeUntilQmark cs

/-- The path component of a URL: everything before the first question
mark.  The framework matches routes on the path only. -/
def pathOf (url : String) : String := String.mk (takeUntilQmark url.data)

/-- The remaining characters when the path starts with the common
segment of the id-carrying routes. -/
def stripAccountsSlash : List Char → Option (List Char)
  | '/' :: 'a' :: 'c' :: 'c' :: 'o' :: 'u' :: 'n' :: 't' :: 's' :: '/' :: rest => some rest
  | _ => none

/-- The numeric value of one decimal digit character. -/
def digitVal? (c : Char) : Option Nat :=
  if c.isDigit then some (c.toNat - 48) else none

/-- Accumulates the decimal value of a digit sequence. -/
def parseNatAux : List Char → Nat → Option Nat
  | [], acc => some acc
  | c :: cs, acc =>
      match digitVal? c with
      | some d => parseNatAux cs (acc * 10 + d)
      | none => none

/-- The decimal value of a non-empty digit sequence. -/
def parseNatChars : List Char → Option Nat
  | [] => none
  | cs => parseNatAux cs 0

/-- The id captured by the `/accounts/<id>` routes, when the path
matches those routes and the segment is numeric. -/
def idSegment (path : String) : Option Nat :=
  match stripAccountsSlash path.data with
  | some rest => parseNatChars rest
  | none => none

/-- The route table of routes.py: matches method and path and runs the
handler.  `none` as the response means the framework produced no handler
response (unmatched route, or a handler that returned `None`). -/
def dispatch (req : Request) (s : Store) : Option Response × Store :=
  let path := pathOf req.url
  match req.method with
  | Method.GET =>
      if path = "/health" then (some health, s)
      else if path = "/" then (some index, s)
      else if path = "/accounts" then (some (get_accounts s), s)
      else match idSegment path with
        | some i => (some (read_account i s), s)
        | none => (none, s)
  | Method.POST =>
      if path = "/accounts" then
        let (r, s') := create_accounts req s
        (some r, s')
      else (none, s)
  | Method.PUT =>
      match idSegment path with
      | some i =>
          let (r, s') := update_account i req s
          (some r, s')
      | none => (none, s)
  | Method.DELETE =>
      match idSegment path with
      | some i => delete_account i s
      | none => (none, s)

/-- The valid example payload from the specification's concrete create
scenario. -/
def janePayload : Payload :=
  { name := some ("Jane"), email := some ("j@x.com"),
    address := some ("1 Main St"), phone_number := some ("555-1111"),
    date_joined := some ("2020-05-05") }

/-- The row the service persists for `janePayload` on an empty store. -/
def janeAccount : Account :=
  ⟨1, "Jane", "j@x.com", "1 Main St", "555-1111", "2020-05-05"⟩

/-- The store after creating exactly `janePayload` on an empty store. -/
def storeJane : Store := ⟨[janeAccount], 2⟩

/-- A POST request to the create endpoint with the JSON media type and
the given body. -/
def postJson (p : Payload) : Request :=
  ⟨Method.POST, "/accounts", some jsonType, p⟩

/-- The store after creating each payload of the list in order, via the
create endpoint. -/
def createAll (ps : List Payload) (s : Store) : Store :=
  ps.foldl (fun acc p => (create_accounts (postJson p) acc).2) s

/-- The empty string. -/
def blank : String := ""

/-- The row the create endpoint persists for payload `p` when the next
server-assigned id is `i`. -/
def rowOf (i : Nat) (p : Payload) : Account :=
  ⟨i, p.name.getD blank, p.email.getD blank, p.address.getD blank,
    p.phone_number.getD blank, p.date_joined.getD defaultDate⟩

/-- The rows successive creates persist for the payload list, starting
from next id `i`. -/
def buildRows : List Payload → Nat → List Account
  | [], _ => []
  | p :: ps, i => rowOf i p :: buildRows ps (i + 1)

/-- Payload `p` round-trips into account `a`: every client-supplied
field is reproduced exactly, and `date_joined` defaults when absent. -/
def matchesPayload (p : Payload) (a : Account) : Prop :=
  p.name = some a.name ∧ p.email = some a.email ∧ p.address = some a.address ∧
    p.phone_number = some a.phone_number ∧ a.date_joined = p.date_joined.getD defaultDate

/-- The declared content type of the media-type mismatch scenario. -/
def htmlType : String := "text/html"

/-! ## Helper lemmas -/

theorem check_content_type_json_pass (req : Request)
    (hct : req.contentType = some jsonType) :
    check_content_type jsonType req = none := by
  unfold check_content_type
  rw [hct]
  exact if_pos ⟨by decide, rfl⟩

theorem deserialize_missing (p : Payload)
    (h : p.name = none ∨ p.email = none ∨ p.address = none ∨ p.phone_number = none) :
    Account.deserialize p = none := by
  unfold Account.deserialize
  rcases hn : p.name with _ | n <;> rcases he : p.email with _ | e <;>
    rcases ha : p.address with _ | a <;> rcases hp : p.phone_number with _ | ph <;>
      simp_all

/-! ## Claims -/

/-- C1: issuing DELETE /accounts/id twice never errors and the second
DELETE still answers 204 — REFUTED on the code.  On the store obtained
by actually creating the Jane account, the first DELETE answers 204 with
the empty array, but the second DELETE (id now absent) produces NO
handler response at all: `delete_account` only returns in its found
branch, so the function falls off the end, which the framework turns
into a server error rather than a 204. -/
theorem delete_twice_second_returns_no_response :
    (create_accounts (postJson janePayload) Store.empty).2 = storeJane ∧
    (delete_account 1 storeJane).1 = some ⟨204, Body.accountList [], none⟩ ∧
    (delete_account 1 (delete_account 1 storeJane).2).1 = none :=
  ⟨rfl, rfl, rfl⟩

/-- C2: POST /accounts answers 201 with a Location header pointing to
that account's read URL whose GET returns an identical body — REFUTED on
the code.  Creating the Jane payload answers 201, but the URL builder is
given the view `get_accounts`, the LIST route, so the Location header is
the list endpoint plus a query parameter; a GET to that Location runs
the list handler and answers 200 with the one-element JSON ARRAY of
accounts, which differs from the single-object 201 body. -/
theorem create_location_points_at_list_endpoint :
    (create_accounts (postJson janePayload) Store.empty).1 =
      ⟨201, Body.account janeAccount, some (location_url 1)⟩ ∧
    location_url 1 = "/accounts?account_id=1" ∧
    (dispatch ⟨Method.GET, location_url 1, none, {}⟩ storeJane).1 =
      some ⟨200, Body.accountList [janeAccount], none⟩ ∧
    Body.accountList [janeAccount] ≠ Body.account janeAccount :=
  ⟨rfl, rfl, rfl, by decide⟩

/-- C3: a POST /accounts whose declared Content-Type differs from
application/json answers 415 with the store unchanged, before any body
parsing or persistence: the response is the guard's fixed 415 whatever
the body holds, and the resulting store is the input store. -/
theorem create_mismatched_content_type_415 (req : Request) (s : Store) (ct : String)
    (hct : req.contentType = some ct) (hne : ct ≠ jsonType) :
    create_accounts req s = (⟨415, Body.errorMsg (badTypeMsg jsonType), none⟩, s) := by
  have hcond : ¬(ct ≠ "" ∧ ct = jsonType) := fun hp => hne hp.2
  simp [create_accounts, check_content_type, hct, hcond]

/-- Witness for C3 at the concrete text/html request of the spec. -/
theorem create_mismatched_content_type_415_witness :
    create_accounts ⟨Method.POST, "/accounts", some htmlType, janePayload⟩ Store.empty =
      (⟨415, Body.errorMsg (badTypeMsg jsonType), none⟩, Store.empty) :=
  create_mismatched_content_type_415 _ Store.empty htmlType rfl (by decide)

/-- C5: PUT /accounts/id on a non-existent id answers 404 with the empty
array and leaves the store unchanged, whatever the request body holds:
the not-found check comes before the body is deserialized and before any
update is persisted. -/
theorem update_not_found_404 (i : Nat) (req : Request) (s : Store)
    (h : Account.find i s = none) :
    update_account i req s = (⟨404, Body.accountList [], none⟩, s) := by
  unfold update_account
  rw [h]

/-- Witness for C5 at the spec's concrete id 9999 with a valid body. -/
theorem update_not_found_404_witness :
    update_account 9999 (postJson janePayload) storeJane =
      (⟨404, Body.accountList [], none⟩, storeJane) :=
  update_not_found_404 9999 (postJson janePayload) storeJane (by decide)

/-- C6: a POST /accounts with the JSON content type whose body misses a
required field answers 400, and the store comes back unchanged — the
deserialization failure happens before any persistence call. -/
theorem create_missing_required_field_400 (req : Request) (s : Store)
    (hct : req.contentType = some jsonType)
    (h : req.body.name = none ∨ req.body.email = none ∨
      req.body.address = none ∨ req.body.phone_number = none) :
    create_accounts req s = (⟨400, Body.errorMsg missingFieldMsg, none⟩, s) := by
  have hg := check_content_type_json_pass req hct
  have hd := deserialize_missing req.body h
  unfold create_accounts
  rw [hg, hd]

/-- Witness for C6 at a concrete body missing the name field. -/
theorem create_missing_required_field_400_witness :
    create_accounts ⟨Method.POST, "/accounts", some jsonType,
        { janePayload with name := none }⟩ Store.empty =
      (⟨400, Body.errorMsg missingFieldMsg, none⟩, Store.empty) :=
  create_missing_required_field_400 _ Store.empty rfl (Or.inl rfl)

/-- C8: GET /health answers 200 with exactly the status-OK body, on
every store, and the store comes back unchanged. -/
theorem health_returns_status_ok :
    health = ⟨200, Body.statusOK, none⟩ ∧
    ∀ s : Store, dispatch ⟨Method.GET, "/health", none, {}⟩ s = (some health, s) :=
  ⟨rfl, fun _ => rfl⟩

/-- C10: a POST /accounts with no Content-Type header at all, or with an
empty one, answers the guard's 415 with the store unchanged, exactly as
a mismatched media type does: a falsy header is a mismatch, not a
failure. -/
theorem create_absent_or_empty_content_type_415 (req : Request) (s : Store)
    (h : req.contentType = none ∨ req.contentType = some blank) :
    create_accounts req s = (⟨415, Body.errorMsg (badTypeMsg jsonType), none⟩, s) := by
  rcases h with h | h <;> simp [create_accounts, check_content_type, h, blank]

/-- Witness for C10 at a concrete request carrying no Content-Type. -/
theorem create_absent_or_empty_content_type_415_witness :
    create_accounts ⟨Method.POST, "/accounts", none, janePayload⟩ Store.empty =
      (⟨415, Body.errorMsg (badTypeMsg jsonType), none⟩, Store.empty) :=
  create_absent_or_empty_content_type_415 _ Store.empty (Or.inl rfl)

theorem dispatch_get_preserves_store (m : Method) (url : String) (ct : Option String)
    (b : Payload) (s : Store) (h : m = Method.GET) :
    (dispatch ⟨m, url, ct, b⟩ s).2 = s := by
  subst h
  unfold dispatch
  dsimp only
  split_ifs <;> try rfl
  cases idSegment (pathOf url) <;> rfl

/-- C4: GET /accounts/id answers 200 with the serialized account when
the id exists, 404 with the empty JSON array when it does not, and a GET
request never changes the store. -/
theorem read_account_found_or_404 (i : Nat) (s : Store) :
    (∀ a, Account.find i s = some a → read_account i s = ⟨200, Body.account a, none⟩) ∧
    (Account.find i s = none → read_account i s = ⟨404, Body.accountList [], none⟩) ∧
    (∀ url, (dispatch ⟨Method.GET, url, none, {}⟩ s).2 = s) := by
  refine ⟨?_, ?_, ?_⟩
  · intro a ha
    unfold read_account
    rw [ha]
  · intro ha
    unfold read_account
    rw [ha]
  · intro url
    exact dispatch_get_preserves_store Method.GET url none {} s rfl

/-- Witness for C4 on the one-account store, at the existing id 1 and
the absent id 9999. -/
theorem read_account_found_or_404_witness :
    read_account 1 storeJane = ⟨200, Body.account janeAccount, none⟩ ∧
    read_account 9999 storeJane = ⟨404, Body.accountList [], none⟩ :=
  ⟨(read_account_found_or_404 1 storeJane).1 janeAccount (by decide),
   (read_account_found_or_404 9999 storeJane).2.1 (by decide)⟩

theorem read_account_status (i : Nat) (s : Store) :
    (read_account i s).status = 200 ∨ (read_account i s).status = 404 := by
  unfold read_account
  cases Account.find i s with
  | none => right; rfl
  | some a => left; rfl

theorem update_account_status (i : Nat) (req : Request) (s : Store) :
    (update_account i req s).1.status = 200 ∨ (update_account i req s).1.status = 400 ∨
      (update_account i req s).1.status = 404 := by
  unfold update_account
  cases Account.find i s with
  | none => right; right; rfl
  | some found =>
    cases Account.deserialize req.body with
    | none => right; left; rfl
    | some d => left; rfl

theorem delete_account_status (i : Nat) (s : Store) (r : Response)
    (h : (delete_account i s).1 = some r) : r.status = 204 := by
  unfold delete_account at h
  cases hf : Account.find i s with
  | none => rw [hf] at h; exact absurd h (by simp)
  | some a =>
    rw [hf] at h
    dsimp only at h
    injection h with h2
    rw [← h2]

/-- C9: the content-type guard runs only on the create endpoint — every
non-POST request that produces a handler response (root, health, list,
read, update, delete) answers one of 200, 204, 400 or 404; none of those
handlers ever aborts with the guard's 415. -/
theorem non_post_never_415 (req : Request) (s : Store) (r : Response)
    (hm : req.method ≠ Method.POST) (hr : (dispatch req s).1 = some r) :
    r.status = 200 ∨ r.status = 204 ∨ r.status = 400 ∨ r.status = 404 := by
  rcases req with ⟨m, url, ct, b⟩
  cases m with
  | POST => exact absurd rfl hm
  | GET =>
    unfold dispatch at hr
    dsimp only at hr
    split_ifs at hr
    · injection hr with h; rw [← h]; left; rfl
    · injection hr with h; rw [← h]; left; rfl
    · injection hr with h; rw [← h]; left; rfl
    · cases hseg : idSegment (pathOf url) with
      | some i =>
        rw [hseg] at hr
        dsimp only at hr
        injection hr with h
        rcases read_account_status i s with h2 | h2 <;> rw [h] at h2
        · left; exact h2
        · right; right; right; exact h2
      | none =>
        rw [hseg] at hr
        exact absurd hr (by simp)
  | PUT =>
    unfold dispatch at hr
    dsimp only at hr
    cases hseg : idSegment (pathOf url) with
    | some i =>
      rw [hseg] at hr
      dsimp only at hr
      injection hr with h
      rcases update_account_status i ⟨Method.PUT, url, ct, b⟩ s with h2 | h2 | h2 <;>
        rw [h] at h2
      · left; exact h2
      · right; right; left; exact h2
      · right; right; right; exact h2
    | none =>
      rw [hseg] at hr
      exact absurd hr (by simp)
  | DELETE =>
    unfold dispatch at hr
    dsimp only at hr
    cases hseg : idSegment (pathOf url) with
    | some i =>
      rw [hseg] at hr
      right; left
      exact delete_account_status i s r hr
    | none =>
      rw [hseg] at hr
      exact absurd hr (by simp)

/-- Witness for C9 at the concrete GET /health request on the empty
store. -/
theorem non_post_never_415_witness :
    health.status = 200 ∨ health.status = 204 ∨
      health.status = 400 ∨ health.status = 404 :=
  non_post_never_415 ⟨Method.GET, "/health", none, {}⟩ Store.empty health
    (by decide) rfl

theorem deserialize_complete (p : Payload) (h : p.isComplete = true) :
    Account.deserialize p =
      some ⟨p.name.getD blank, p.email.getD blank, p.address.getD blank,
        p.phone_number.getD blank, p.date_joined.getD defaultDate⟩ := by
  unfold Payload.isComplete at h
  simp only [Bool.and_eq_true] at h
  unfold Account.deserialize
  rcases hn : p.name with _ | n <;> rcases he : p.email with _ | e <;>
    rcases ha : p.address with _ | a <;> rcases hp : p.phone_number with _ | ph <;>
      simp_all

theorem create_accounts_complete (p : Payload) (s : Store) (h : p.isComplete = true) :
    create_accounts (postJson p) s =
      (⟨201, Body.account (rowOf s.nextId p), some (location_url s.nextId)⟩,
        ⟨s.rows ++ [rowOf s.nextId p], s.nextId + 1⟩) := by
  have hg : check_content_type jsonType (postJson p) = none :=
    check_content_type_json_pass (postJson p) rfl
  unfold create_accounts
  rw [hg, show (postJson p).body = p from rfl, deserialize_complete p h]
  rfl

theorem createAll_spec (ps : List Payload) (s : Store)
    (h : ∀ p ∈ ps, p.isComplete = true) :
    createAll ps s = ⟨s.rows ++ buildRows ps s.nextId, s.nextId + ps.length⟩ := by
  induction ps generalizing s with
  | nil => simp [createAll, buildRows]
  | cons p ps ih =>
    have hp : p.isComplete = true := h p (List.mem_cons_self p ps)
    have hps : ∀ q ∈ ps, q.isComplete = true := fun q hq => h q (List.mem_cons_of_mem p hq)
    have hstep : createAll (p :: ps) s =
        createAll ps ⟨s.rows ++ [rowOf s.nextId p], s.nextId + 1⟩ := by
      show createAll ps (create_accounts (postJson p) s).2 = _
      rw [create_accounts_complete p s hp]
    rw [hstep, ih _ hps]
    simp only [Store.mk.injEq, buildRows]
    constructor
    · simp [List.append_assoc]
    · simp only [List.length_cons]
      omega

theorem buildRows_length (ps : List Payload) (i : Nat) :
    (buildRows ps i).length = ps.length := by
  induction ps generalizing i with
  | nil => rfl
  | cons p ps ih => simp [buildRows, ih]

theorem buildRows_get (ps : List Payload) (i k : Nat) (hk : k < ps.length) :
    (buildRows ps i).get? k = some (rowOf (i + k) (ps.get ⟨k, hk⟩)) := by
  induction ps generalizing i k with
  | nil => exact absurd hk (Nat.not_lt_zero k)
  | cons p ps ih =>
    cases k with
    | zero => simp [buildRows]
    | succ k =>
      have hk2 : k < ps.length := Nat.lt_of_succ_lt_succ hk
      show (buildRows ps (i + 1)).get? k = _
      rw [ih (i + 1) k hk2]
      have : i + 1 + k = i + (k + 1) := by omega
      rw [this]
      rfl

theorem matchesPayload_rowOf (p : Payload) (i : Nat) (h : p.isComplete = true) :
    matchesPayload p (rowOf i p) := by
  unfold Payload.isComplete at h
  simp only [Bool.and_eq_true] at h
  obtain ⟨⟨⟨h1, h2⟩, h3⟩, h4⟩ := h
  rcases Option.isSome_iff_exists.mp h1 with ⟨n, hn⟩
  rcases Option.isSome_iff_exists.mp h2 with ⟨e, he⟩
  rcases Option.isSome_iff_exists.mp h3 with ⟨a, ha⟩
  rcases Option.isSome_iff_exists.mp h4 with ⟨ph, hp⟩
  unfold matchesPayload rowOf
  rw [hn, he, ha, hp]
  exact ⟨rfl, rfl, rfl, rfl, rfl⟩

/-- C7: creating N valid accounts on the empty store and then calling
the list endpoint answers 200 with the serialized array of exactly N
entries, the k-th entry round-tripping every field of the k-th created
payload; on the empty store the list body is the empty array. -/
theorem list_accounts_after_creates (ps : List Payload)
    (h : ∀ p ∈ ps, p.isComplete = true) :
    get_accounts (createAll ps Store.empty) =
      ⟨200, Body.accountList (createAll ps Store.empty).rows, none⟩ ∧
    (createAll ps Store.empty).rows.length = ps.length ∧
    (∀ k (hk : k < ps.length), ∃ a,
      (createAll ps Store.empty).rows.get? k = some a ∧
        matchesPayload (ps.get ⟨k, hk⟩) a) ∧
    get_accounts Store.empty = ⟨200, Body.accountList [], none⟩ := by
  have hca := createAll_spec ps Store.empty h
  refine ⟨rfl, ?_, ?_, rfl⟩
  · rw [hca]
    show (Store.empty.rows ++ buildRows ps Store.empty.nextId).length = ps.length
    simp [Store.empty, buildRows_length]
  · intro k hk
    refine ⟨rowOf (1 + k) (ps.get ⟨k, hk⟩), ?_, ?_⟩
    · rw [hca]
      show (Store.empty.rows ++ buildRows ps Store.empty.nextId).get? k = _
      rw [show Store.empty.rows = [] from rfl, List.nil_append,
        show Store.empty.nextId = 1 from rfl]
      exact buildRows_get ps 1 k hk
    · exact matchesPayload_rowOf _ _ (h _ (ps.get_mem k hk))

/-- Witness for C7 at the concrete one-payload list. -/
theorem list_accounts_after_creates_witness :
    (createAll [janePayload] Store.empty).rows.length = [janePayload].length :=
  (list_accounts_after_creates [janePayload] (by decide)).2.1

end AccountService
